import Mathlib

/-!
Verification of the oee-mongo MongoDB compatibility advisor
(src/mongoAssess.js and the enhanced sizing script src/unnamed/part_001).

The classifier (analyze_keywords, traverse, summarize_keywords) is textually
identical in both scripts; the sizing estimator, the seven-mode driver and the
sectioned report renderer exist only in the enhanced script.  Definitions below
mirror the JavaScript source; JavaScript numbers are modelled as rationals.
-/

namespace MongoAssess

/-- JSON-like document tree, as produced by JSON.parse of a profile export.
Mutual with its list forms so that recursive walks are structural. -/
inductive Json where
| null : Json
| bool (b : Bool) : Json
| num (q : ℚ) : Json
| str (s : String) : Json
| arr (items : List Json) : Json
| obj (fields : List (String × Json)) : Json

/-- Keyword catalog from the source: operators supported by the target API. -/
def supported_keywords : List String :=
  ["$gt","$gte","$lt","$and","$not","$or","$nor","$ne","$eq","$in","$lte","$nin","$exists","$type",
   "$regex","$text","$near","$nearSphere","$size","$natural","$inc","$min","$max","$rename","$set",
   "$addToSet","$pop","$pull","$push","$pullAll","$each","$position","$sort","$bit","$count","$limit",
   "$match","$skip","$slice","$group","$project","$arrayElemAt"]

/-- Keyword catalog from the source: operators not supported by the target API. -/
def not_supported_keywords : List String :=
  ["$expr","$jsonSchema","$mod","$geoIntersects","$geoWithin","$box","$center","$centerSphere",
   "$maxDistance","$minDistance","$polygon","$all","$bitsAllClear","$bitsAllSet","$bitsAnyClear",
   "$bitsAnySet","$elemMatch","$rand","$currentData","$mul","$setOnInsert","$abs","$accumulator",
   "$acos","$acosh","$addFields","$bucket","$bucketAuto","$changeStream","$collStats","$currentOp",
   "$densify","$documents","$facet","$fill","$geoNear","$graphLookup","$indexStats","$lookup","$merge",
   "$out","$redact","$replaceRoot","$replaceWith","$sample","$search","$searchMeta","$setWindowFields",
   "$sortByCount","$unionWith","$unset","$unwind","$add","$allElementsTrue","$anyElementTrue",
   "$arrayToObject","$asin","$asinh","$atan","$atan2","$atanh","$avg","$binarySize","$bottom",
   "$bottomN","$bsonSize","$ceil","$cmp","$concat","$concatArrays","$cond","$convert","$cosh",
   "$covariancePop","$covarianceSamp","$dateAdd","$dateDiff","$dateFromParts","$dateFromString",
   "$datesubtract","$dateToParts","$dateToString","$dateTrunc","$dayOfMonth","$dayOfWeek",
   "$dayOfYear","$degreesToRadians","$denseRank","$derivative","$divide","$documentNumber","$exp",
   "$expMovingAvg","$filter","$first","$firstN","$floor","$function","$getField","$hour","$ifNull",
   "$indexOfArray","$indexOfBytes","$indexOfCP","$integral","$isArray","$isNumber","$isoDayOfWeek",
   "$isoWeek","$isoWeekYear","$last","$lastN","$let","$linearFill","$literal","$ln","$log","$log10",
   "$ltrim","$map","$maxN","$mergeObjects","$meta","$minN","$millisecond","$minute","$month",
   "$multiply","$objectToArray","$pow","$radiansToDegrees","$range","$rank","$reduce","$regexFind",
   "$regexFindAll","$regexMatch","$replaceOne","$replaceAll","$reverseArray","$round","$rtrim",
   "$sampleRate","$second","$setDifference","$setEquals","$setField","$setIntersection","$setIsSubset",
   "$setUnion","$shift","$sin","$sinh","$sortArray","$split","$sqrt","$stsDevPop","$stsDevSamp",
   "$strLenBytes","$strcasecmp","$strLenCP","$substr","$substrCP","$subtract","$sum","$switch",
   "$tan","$tanh","$toBool","$toDate","$toDecimal","$toDouble","$toInt","$toLong","$toObjectId",
   "$top","$topN","$toString","$toLower","$toUpper","$tsIncrement","$tsSecond","$trim","$trunc",
   "$unsetField","$week","$year","$zip"]

mutual

/-- Does the string k occur as an object key anywhere inside the tree?
Array indices are not object keys; the JavaScript for..in loop over an array
visits index keys, which never carry the reserved dollar prefix. -/
def hasKey (k : String) : Json → Bool
| .obj fields => hasKeyFields k fields
| .arr items => hasKeyItems k items
| _ => false

def hasKeyFields (k : String) : List (String × Json) → Bool
| [] => false
| (key, v) :: rest => key == k || hasKey k v || hasKeyFields k rest

def hasKeyItems (k : String) : List Json → Bool
| [] => false
| x :: rest => hasKey k x || hasKeyItems k rest

end

/-- Mutable state of the JavaScript traverse closure: the two module-level
occurrence dictionaries (shared across entries, insertion ordered) and the
per-entry command_category list of triggering keywords. -/
structure TravState where
  supported_dictionary : List (String × Nat)
  not_supported_dictionary : List (String × Nat)
  command_category : List String

/-- dict[key] = (dict[key] or 0) + 1 on a JavaScript object modelled as an
insertion-ordered association list. -/
def bump (d : List (String × Nat)) (k : String) : List (String × Nat) :=
  if d.any (fun p => p.1 == k) then
    d.map (fun p => if p.1 == k then (p.1, p.2 + 1) else p)
  else
    d ++ [(k, 1)]

/-- key.startsWith of the source, specialised to the one-character dollar
marker: the first character of the string is the dollar sign.  Stated on the
character list underlying the string so that concrete instances reduce. -/
def startsWithDollar (k : String) : Bool :=
  k.data.head? == some '$'

/-- The body of the for..in loop of traverse, for a single object key:
count a dollar-prefixed key in the matching dictionary, and record a
not-supported key once in command_category. -/
def visitKey (k : String) (st : TravState) : TravState :=
  if startsWithDollar k then
    if supported_keywords.contains k then
      { st with supported_dictionary := bump st.supported_dictionary k }
    else if not_supported_keywords.contains k then
      { st with
        not_supported_dictionary := bump st.not_supported_dictionary k,
        command_category :=
          if st.command_category.contains k then st.command_category
          else st.command_category ++ [k] }
    else st
  else st

mutual

/-- Depth-first walk of traverse from the source.  In JavaScript an array is
also typeof object and is walked through the same for..in branch; its index
keys never start with the dollar marker, so only the element recursion is
observable and the explicit Array.isArray branch of the source is dead code. -/
def traverse (j : Json) (st : TravState) : TravState :=
  match j with
  | .obj fields => traverseFields fields st
  | .arr items => traverseItems items st
  | _ => st

def traverseFields (fields : List (String × Json)) (st : TravState) : TravState :=
  match fields with
  | [] => st
  | (key, v) :: rest => traverseFields rest (traverse v (visitKey key st))

def traverseItems (items : List Json) (st : TravState) : TravState :=
  match items with
  | [] => st
  | x :: rest => traverseItems rest (traverse x st)

end

/-- First value of an object field, none on non-objects: entry.op access. -/
def getField (j : Json) (k : String) : Option Json :=
  match j with
  | .obj fields => fields.lookup k
  | _ => none

/-- The guard entry.op and entry.op === 'command' of the source; the
truthiness conjunct is redundant since the string 'command' is truthy. -/
def isCommand (entry : Json) : Bool :=
  match getField entry "op" with
  | some (.str s) => s == "command"
  | _ => false

/-- Result record of analyze_keywords. -/
structure AnalyzeResult where
  supported_dictionary : List (String × Nat)
  not_supported_dictionary : List (String × Nat)
  supported_commands : List Json
  not_supported_commands : List (Json × List String)

/-- One step of the data.forEach loop of analyze_keywords. -/
def analyzeStep (acc : AnalyzeResult) (entry : Json) : AnalyzeResult :=
  if isCommand entry then
    let st := traverse entry
      ⟨acc.supported_dictionary, acc.not_supported_dictionary, []⟩
    if st.command_category.length > 0 then
      { acc with
        supported_dictionary := st.supported_dictionary,
        not_supported_dictionary := st.not_supported_dictionary,
        not_supported_commands :=
          acc.not_supported_commands ++ [(entry, st.command_category)] }
    else
      { acc with
        supported_dictionary := st.supported_dictionary,
        not_supported_dictionary := st.not_supported_dictionary,
        supported_commands := acc.supported_commands ++ [entry] }
  else acc

/-- analyze_keywords from the source (identical in both scripts): classify
every profile entry whose op field is the string command. -/
def analyze_keywords (data : List Json) : AnalyzeResult :=
  data.foldl analyzeStep ⟨[], [], [], []⟩

/-! Derived views of the traversal, used to state and prove the claims. -/

/-- Condition under which traverse pushes a key onto command_category:
dollar prefixed, not in the supported list, in the not-supported list. -/
def pushCond (k : String) : Bool :=
  startsWithDollar k && !(supported_keywords.contains k) && not_supported_keywords.contains k

/-- Effect of visitKey on the command_category component alone. -/
def ccStep (key : String) (c : List String) : List String :=
  if pushCond key && !(c.contains key) then c ++ [key] else c

mutual

/-- Evolution of command_category over the walk, dictionaries ignored. -/
def ccTraverse (j : Json) (c : List String) : List String :=
  match j with
  | .obj fields => ccFields fields c
  | .arr items => ccItems items c
  | _ => c

def ccFields (fields : List (String × Json)) (c : List String) : List String :=
  match fields with
  | [] => c
  | (key, v) :: rest => ccFields rest (ccTraverse v (ccStep key c))

def ccItems (items : List Json) (c : List String) : List String :=
  match items with
  | [] => c
  | x :: rest => ccItems rest (ccTraverse x c)

end

/-- At least one keyword of the not-supported list occurs as an object key
somewhere inside the entry. -/
def containsNotSupportedKey (e : Json) : Bool :=
  not_supported_keywords.any (fun k => hasKey k e)

/-- The triggering-keyword list the classifier computes for one entry. -/
def command_category_of (e : Json) : List String :=
  ccTraverse e []

/-! Sample profile entries used to instantiate the classifier theorems. -/

/-- A command entry containing the not-supported key dollar-lookup twice. -/
def sampleBadEntry : Json :=
  .obj [("op", .str "command"),
        ("command", .obj [("pipeline",
          .arr [.obj [("$lookup", .num 1)],
                .obj [("$lookup", .num 2), ("$match", .num 3)]])])]

/-- A command entry whose only reserved-prefix key is supported. -/
def sampleGoodEntry : Json :=
  .obj [("op", .str "command"), ("command", .obj [("filter", .obj [("$eq", .num 5)])])]

/-- An entry whose op field is not the string command. -/
def sampleSkipEntry : Json :=
  .obj [("op", .str "query"), ("command", .obj [("$lookup", .num 9)])]

/-- A small profile export exercising all three entry shapes. -/
def sampleData : List Json := [sampleSkipEntry, sampleGoodEntry, sampleBadEntry]

/-! Keyword summary and the sizing estimator of the enhanced script. -/

/-- Result record of summarize_keywords. -/
structure KeywordSummary where
  total_keywords : Nat
  total_supported : Nat
  total_not_supported : Nat
  supported_percent : ℚ

/-- summarize_keywords from the source: totals of the two occurrence
dictionaries and the compatibility percentage with its zero guard. -/
def summarize_keywords (sd nsd : List (String × Nat)) : KeywordSummary :=
  let total_supported := (sd.map (fun p => p.2)).sum
  let total_not_supported := (nsd.map (fun p => p.2)).sum
  let total_keywords := total_supported + total_not_supported
  let supported_percent : ℚ :=
    if total_keywords > 0 then ((total_supported : ℚ) / (total_keywords : ℚ)) * 100 else 0
  ⟨total_keywords, total_supported, total_not_supported, supported_percent⟩

/-- Legacy opcode counters: the optional deprecated subdocument of opcounters
on newer servers; only its query member is read. -/
structure DeprecatedOps where
  query : ℚ

/-- The opcounters subdocument of a metrics snapshot. -/
structure Opcounters where
  insert : ℚ
  query : ℚ
  update : ℚ
  delete : ℚ
  getmore : ℚ
  command : ℚ
  deprecated : Option DeprecatedOps

/-- Result triple of calculate_cpu_cores. -/
structure CpuResult where
  total_operations : ℚ
  ops_per_sec : ℚ
  cpu_cores : ℤ

/-- calculate_cpu_cores from the source.  The truthiness test on
opcounters.deprecated is modelled by the option; the source's ops_per_core
parameter defaults to 1500 and perform_sizing uses that default. -/
def calculate_cpu_cores (opcounters : Opcounters) (uptime_seconds ops_per_core : ℚ) :
    CpuResult :=
  let total_operations :=
    opcounters.insert + opcounters.query + opcounters.update + opcounters.delete +
      opcounters.getmore + opcounters.command +
      (match opcounters.deprecated with
       | some d => d.query
       | none => 0)
  let ops_per_sec := if uptime_seconds > 0 then total_operations / uptime_seconds else 0
  let cpu_cores := ⌈ops_per_sec / ops_per_core⌉
  ⟨total_operations, ops_per_sec, cpu_cores⟩

/-- Per-database statistics entry of dbStats; only these three numeric fields
are read, each through the JavaScript or-zero default when absent. -/
structure DbStat where
  dataSize : Option ℚ
  indexSize : Option ℚ
  totalSize : Option ℚ

/-- Result pair of calculate_memory_requirements. -/
structure MemResult where
  working_set_size_mb : ℚ
  memory_required_mb : ℤ

set_option linter.unusedVariables false in
/-- calculate_memory_requirements from the source.  The mem_stats parameter
is declared but never read.  The single for..in accumulation loop over the
dbStats object is written as two sums over the entry list. -/
def calculate_memory_requirements (mem_stats : Option Json)
    (db_stats : List (String × DbStat)) : MemResult :=
  let total_data_size := (db_stats.map (fun p => p.2.dataSize.getD 0)).sum
  let total_index_size := (db_stats.map (fun p => p.2.indexSize.getD 0)).sum
  let working_set_size_bytes := total_data_size + total_index_size
  let working_set_size_mb := working_set_size_bytes / (1024 * 1024)
  let memory_required_mb := ⌈working_set_size_mb * 1.5⌉
  ⟨working_set_size_mb, memory_required_mb⟩

/-- calculate_storage_requirements from the source: total size over all
databases with a 20 percent buffer, rounded up. -/
def calculate_storage_requirements (db_stats : List (String × DbStat)) : ℤ :=
  ⌈(((db_stats.map (fun p => p.2.totalSize.getD 0)).sum * 1.2 : ℚ))⌉

/-- The network subdocument of a metrics snapshot. -/
structure Network where
  bytesIn : Option ℚ
  bytesOut : Option ℚ

/-- calculate_network_bandwidth from the source. -/
def calculate_network_bandwidth (network_stats : Network) (uptime_seconds : ℚ) : ℚ :=
  let bytes_in := network_stats.bytesIn.getD 0
  let bytes_out := network_stats.bytesOut.getD 0
  let total_bytes := bytes_in + bytes_out
  let total_mb := total_bytes / (1024 * 1024)
  if uptime_seconds > 0 then total_mb / uptime_seconds else 0

/-- calculate_connection_limits from the source: 50 percent headroom. -/
def calculate_connection_limits (current_connections : ℚ) : ℤ :=
  ⌈(current_connections * 1.5 : ℚ)⌉

/-- The connections subdocument; only current is read. -/
structure Connections where
  current : ℚ

/-- Typed view of a metrics snapshot.  The collector of the enhanced script
writes the field mem while perform_sizing reads the field memory; both are
carried and neither is read by any sizing computation. -/
structure Metrics where
  opcounters : Opcounters
  uptimeSeconds : ℚ
  connections : Connections
  mem : Option Json
  memory : Option Json
  network : Network
  dbStats : List (String × DbStat)

/-- parseFloat(x.toFixed(d)) of the source, idealised as exact decimal
rounding of the rational value (the source rounds a binary double). -/
def roundToDecimals (d : ℕ) (q : ℚ) : ℚ :=
  ((round (q * 10 ^ d) : ℤ) : ℚ) / 10 ^ d

/-- The record returned by perform_sizing, with the source's display names
replaced by identifiers. -/
structure SizingResult where
  total_operations : ℚ
  uptime_seconds : ℚ
  ops_per_sec : ℚ
  cpu_cores : ℤ
  working_set_size_mb : ℚ
  memory_required_mb : ℤ
  storage_required_bytes : ℤ
  network_bandwidth_mb_sec : ℚ
  connection_limits : ℤ

/-- perform_sizing from the source: the five estimators applied to one
snapshot; the memory estimator receives the (never read) memory field. -/
def perform_sizing (metrics : Metrics) (db_stats : List (String × DbStat)) : SizingResult :=
  let cpu := calculate_cpu_cores metrics.opcounters metrics.uptimeSeconds 1500
  let mem := calculate_memory_requirements metrics.memory db_stats
  let storage_required_bytes := calculate_storage_requirements db_stats
  let network_bandwidth_mb_sec :=
    calculate_network_bandwidth metrics.network metrics.uptimeSeconds
  let connection_limits := calculate_connection_limits metrics.connections.current
  ⟨cpu.total_operations, metrics.uptimeSeconds, roundToDecimals 2 cpu.ops_per_sec,
   cpu.cpu_cores, roundToDecimals 2 mem.working_set_size_mb, mem.memory_required_mb,
   storage_required_bytes, roundToDecimals 6 network_bandwidth_mb_sec, connection_limits⟩

/-! Mode 7 of the interactive driver: metrics validation and sizing. -/

/-- The JavaScript in-operator on the parsed metrics object. -/
def hasField (j : Json) (k : String) : Bool :=
  match j with
  | .obj fields => fields.any (fun p => p.1 == k)
  | _ => false

/-- The required_fields list of mode 7. -/
def required_fields : List String :=
  ["opcounters", "uptimeSeconds", "connections", "mem", "network", "dbStats"]

/-- required_fields.filter(field => !(field in metrics_data)). -/
def missing_fields (metrics_data : Json) : List String :=
  required_fields.filter (fun f => !(hasField metrics_data f))

/-- Numeric payload of a JSON value. -/
def getNum (j : Json) : Option ℚ :=
  match j with
  | .num q => some q
  | _ => none

/-- Numeric object field. -/
def fieldNum (j : Json) (k : String) : Option ℚ :=
  (getField j k).bind getNum

/-- Typed view of the opcounters subdocument.  The six counters are read with
a zero default (the source adds the raw properties without defaults, which
the claims never exercise on absent counters); the deprecated subdocument is
present exactly when the key is. -/
def decodeOpcounters (j : Json) : Opcounters :=
  ⟨(fieldNum j "insert").getD 0, (fieldNum j "query").getD 0,
   (fieldNum j "update").getD 0, (fieldNum j "delete").getD 0,
   (fieldNum j "getmore").getD 0, (fieldNum j "command").getD 0,
   match getField j "deprecated" with
   | some d => some ⟨(fieldNum d "query").getD 0⟩
   | none => none⟩

/-- Typed view of one dbStats entry: the three optional sizes. -/
def decodeDbStat (j : Json) : DbStat :=
  ⟨fieldNum j "dataSize", fieldNum j "indexSize", fieldNum j "totalSize"⟩

/-- Typed view of the dbStats object. -/
def decodeDbStats (j : Json) : List (String × DbStat) :=
  match j with
  | .obj fields => fields.map (fun p => (p.1, decodeDbStat p.2))
  | _ => []

/-- Typed view of the network subdocument. -/
def decodeNetwork (j : Json) : Network :=
  ⟨fieldNum j "bytesIn", fieldNum j "bytesOut"⟩

/-- Typed view of a whole metrics snapshot. -/
def decodeMetrics (j : Json) : Metrics :=
  ⟨((getField j "opcounters").map decodeOpcounters).getD ⟨0, 0, 0, 0, 0, 0, none⟩,
   ((getField j "uptimeSeconds").bind getNum).getD 0,
   ⟨((getField j "connections").bind (fun c => fieldNum c "current")).getD 0⟩,
   getField j "mem", getField j "memory",
   ((getField j "network").map decodeNetwork).getD ⟨none, none⟩,
   ((getField j "dbStats").map decodeDbStats).getD []⟩

/-- Mode 7 of the driver after the metrics file is parsed: validate the six
required top-level fields, rejecting with a message listing every missing
one, otherwise perform sizing on the snapshot and its dbStats. -/
def mode7 (metrics_data : Json) : Except String SizingResult :=
  let missing := missing_fields metrics_data
  if missing.length > 0 then
    Except.error
      ("Metrics JSON file is missing required fields: " ++ String.intercalate ", " missing)
  else
    Except.ok (perform_sizing (decodeMetrics metrics_data) (decodeMetrics metrics_data).dbStats)

/-- A dbStats entry with every absent size replaced by an explicit zero. -/
def zeroFillStat (s : DbStat) : DbStat :=
  ⟨some (s.dataSize.getD 0), some (s.indexSize.getD 0), some (s.totalSize.getD 0)⟩

/-! Purge of the profiler collection. -/

/-- Error value surfaced by the MongoDB client; only codeName is inspected. -/
structure MongoError where
  codeName : String
deriving DecidableEq

/-- purge_profiling_data of the enhanced script, as a function of the outcome
of dropping the system.profile collection: the namespace-not-found error is
recovered into a successful no-op, every other error is rethrown. -/
def purge_profiling_data (drop_result : Except MongoError Unit) : Except MongoError Unit :=
  match drop_result with
  | Except.ok _ => Except.ok ()
  | Except.error e =>
    if e.codeName == "NamespaceNotFound" then Except.ok () else Except.error e

/-- purge_profiling_data of mongoAssess.js: the drop is not guarded, every
outcome including the namespace-not-found error propagates to the caller. -/
def purge_profiling_data_assess (drop_result : Except MongoError Unit) :
    Except MongoError Unit :=
  drop_result

/-! Section structure of generate_html_report of the enhanced script. -/

/-- The top-level blocks the renderer can append. -/
inductive ReportSection where
| header
| operatorSummary
| sizingTable
| supportedDetails
| notSupportedDetails
| metricsDump
| faq
deriving DecidableEq

/-- Sections appended by generate_html_report, in source order.  The operator
summary and the two command listings are unconditional (their guards are
commented out in the source); the sizing table requires a non-null sizing
argument, the metrics dump a non-null metrics argument, and the FAQ block is
appended exactly when the metrics argument is null, whatever the sizing
argument is. -/
def generate_html_report_sections (metrics : Option Json) (sizing : Option SizingResult) :
    List ReportSection :=
  [ReportSection.header, ReportSection.operatorSummary] ++
    (if sizing.isSome then [ReportSection.sizingTable] else []) ++
    [ReportSection.supportedDetails, ReportSection.notSupportedDetails] ++
    (if metrics.isSome then [ReportSection.metricsDump] else []) ++
    (if metrics.isNone then [ReportSection.faq] else [])

/-! Sample sizing inputs used to instantiate the sizing theorems. -/

/-- A dbStats map with one database and all sizes present. -/
def sampleDbStats : List (String × DbStat) :=
  [("a", ⟨some 1048576, some 1048576, some 2097152⟩)]

/-- A snapshot whose mem field is a number and memory field is absent. -/
def sampleMetricsA : Metrics :=
  ⟨⟨100, 200, 50, 10, 5, 5, none⟩, 370, ⟨40⟩, some (.num 1), none,
   ⟨some 1024, some 2048⟩, sampleDbStats⟩

/-- The same snapshot with different mem and memory fields. -/
def sampleMetricsB : Metrics :=
  ⟨⟨100, 200, 50, 10, 5, 5, none⟩, 370, ⟨40⟩, none, some (.obj []),
   ⟨some 1024, some 2048⟩, sampleDbStats⟩

/-- A parsed metrics file with all six required fields, where network lacks
bytesOut and the single dbStats entry lacks indexSize and totalSize. -/
def sampleMetricsJson : Json :=
  .obj [("opcounters", .obj [("insert", .num 100), ("query", .num 200),
          ("update", .num 50), ("delete", .num 10), ("getmore", .num 5),
          ("command", .num 5)]),
        ("uptimeSeconds", .num 370),
        ("connections", .obj [("current", .num 40)]),
        ("mem", .obj []),
        ("network", .obj [("bytesIn", .num 1024)]),
        ("dbStats", .obj [("a", .obj [("dataSize", .num 1048576)])])]

/-- A parsed metrics file missing the mem and network fields. -/
def sampleBadMetricsJson : Json :=
  .obj [("opcounters", .obj []), ("uptimeSeconds", .num 370),
        ("connections", .obj []), ("dbStats", .obj [])]

/-- A placeholder sizing result for renderer instances. -/
def sampleSizing : SizingResult :=
  ⟨370, 370, 1, 1, 150, 225, 251658240, 0, 60⟩

theorem visitKey_cc (key : String) (st : TravState) :
    (visitKey key st).command_category = ccStep key st.command_category := by
  unfold visitKey ccStep pushCond
  split_ifs with h1 h2 h3 h4 h5 <;> simp_all

mutual

theorem traverse_cc (j : Json) (st : TravState) :
    (traverse j st).command_category = ccTraverse j st.command_category := by
  cases j with
  | obj fields => simpa [traverse, ccTraverse] using traverseFields_cc fields st
  | arr items => simpa [traverse, ccTraverse] using traverseItems_cc items st
  | null => simp [traverse, ccTraverse]
  | bool b => simp [traverse, ccTraverse]
  | num q => simp [traverse, ccTraverse]
  | str s => simp [traverse, ccTraverse]

theorem traverseFields_cc (fields : List (String × Json)) (st : TravState) :
    (traverseFields fields st).command_category = ccFields fields st.command_category := by
  cases fields with
  | nil => simp [traverseFields, ccFields]
  | cons p rest =>
    obtain ⟨key, v⟩ := p
    rw [traverseFields, ccFields, traverseFields_cc rest, traverse_cc v, visitKey_cc]

theorem traverseItems_cc (items : List Json) (st : TravState) :
    (traverseItems items st).command_category = ccItems items st.command_category := by
  cases items with
  | nil => simp [traverseItems, ccItems]
  | cons x rest =>
    rw [traverseItems, ccItems, traverseItems_cc rest, traverse_cc x]

end

theorem ccStep_mem (key k : String) (c : List String) :
    k ∈ ccStep key c ↔ k ∈ c ∨ (pushCond k = true ∧ key = k) := by
  unfold ccStep
  by_cases hk : key = k
  · subst hk
    cases hpc : pushCond key <;> cases hcc : c.contains key <;> simp_all
  · have hk2 : ¬(k = key) := fun hcontra => hk hcontra.symm
    split_ifs with h <;> simp [hk, hk2]

theorem ccStep_nodup (key : String) (c : List String) (h : c.Nodup) :
    (ccStep key c).Nodup := by
  unfold ccStep
  split_ifs with hc
  · have hnm : key ∉ c := by
      intro hm
      simp at hc
      exact hc.2 hm
    simp [List.nodup_append, h, hnm]
  · exact h

mutual

theorem ccTraverse_mem (j : Json) (c : List String) (k : String) :
    k ∈ ccTraverse j c ↔ k ∈ c ∨ (pushCond k = true ∧ hasKey k j = true) := by
  cases j with
  | obj fields =>
    rw [ccTraverse, ccFields_mem]
    simp [hasKey]
  | arr items =>
    rw [ccTraverse, ccItems_mem]
    simp [hasKey]
  | null => simp [ccTraverse, hasKey]
  | bool b => simp [ccTraverse, hasKey]
  | num q => simp [ccTraverse, hasKey]
  | str s => simp [ccTraverse, hasKey]

theorem ccFields_mem (fields : List (String × Json)) (c : List String) (k : String) :
    k ∈ ccFields fields c ↔ k ∈ c ∨ (pushCond k = true ∧ hasKeyFields k fields = true) := by
  cases fields with
  | nil => simp [ccFields, hasKeyFields]
  | cons p rest =>
    obtain ⟨key, v⟩ := p
    rw [ccFields, ccFields_mem rest, ccTraverse_mem v, ccStep_mem]
    simp only [hasKeyFields, Bool.or_eq_true, beq_iff_eq]
    tauto

theorem ccItems_mem (items : List Json) (c : List String) (k : String) :
    k ∈ ccItems items c ↔ k ∈ c ∨ (pushCond k = true ∧ hasKeyItems k items = true) := by
  cases items with
  | nil => simp [ccItems, hasKeyItems]
  | cons x rest =>
    rw [ccItems, ccItems_mem rest, ccTraverse_mem x]
    simp only [hasKeyItems, Bool.or_eq_true]
    tauto

end

mutual

theorem ccTraverse_nodup (j : Json) (c : List String) (h : c.Nodup) :
    (ccTraverse j c).Nodup := by
  cases j with
  | obj fields => exact ccFields_nodup fields c h
  | arr items => exact ccItems_nodup items c h
  | null => simpa [ccTraverse] using h
  | bool b => simpa [ccTraverse] using h
  | num q => simpa [ccTraverse] using h
  | str s => simpa [ccTraverse] using h

theorem ccFields_nodup (fields : List (String × Json)) (c : List String) (h : c.Nodup) :
    (ccFields fields c).Nodup := by
  cases fields with
  | nil => simpa [ccFields] using h
  | cons p rest =>
    obtain ⟨key, v⟩ := p
    rw [ccFields]
    exact ccFields_nodup rest _ (ccTraverse_nodup v _ (ccStep_nodup key c h))

theorem ccItems_nodup (items : List Json) (c : List String) (h : c.Nodup) :
    (ccItems items c).Nodup := by
  cases items with
  | nil => simpa [ccItems] using h
  | cons x rest =>
    rw [ccItems]
    exact ccItems_nodup rest _ (ccTraverse_nodup x _ h)

end

theorem command_category_of_eq (e : Json) : ccTraverse e [] = command_category_of e := rfl

theorem command_category_of_mem (e : Json) (k : String) :
    k ∈ command_category_of e ↔ pushCond k = true ∧ hasKey k e = true := by
  unfold command_category_of
  rw [ccTraverse_mem]
  simp

theorem command_category_of_nodup (e : Json) : (command_category_of e).Nodup :=
  ccTraverse_nodup e [] List.nodup_nil

/-- Catalog fact, checked by evaluation: every not-supported keyword carries
the dollar marker and is absent from the supported list. -/
theorem ns_catalog :
    not_supported_keywords.all
      (fun s => startsWithDollar s && !(supported_keywords.contains s)) = true := by decide

theorem ns_pushCond (k : String) (hk : k ∈ not_supported_keywords) : pushCond k = true := by
  have h1 := List.all_eq_true.mp ns_catalog k hk
  have h2 : not_supported_keywords.contains k = true := by simpa using hk
  unfold pushCond
  simp_all

theorem pushCond_ns (k : String) (h : pushCond k = true) : k ∈ not_supported_keywords := by
  unfold pushCond at h
  simp at h
  exact h.2

theorem command_category_nonempty_iff (e : Json) :
    command_category_of e ≠ [] ↔ containsNotSupportedKey e = true := by
  constructor
  · intro h
    obtain ⟨k, hk⟩ := List.exists_mem_of_ne_nil _ h
    rw [command_category_of_mem] at hk
    unfold containsNotSupportedKey
    rw [List.any_eq_true]
    exact ⟨k, pushCond_ns k hk.1, hk.2⟩
  · intro h
    unfold containsNotSupportedKey at h
    rw [List.any_eq_true] at h
    obtain ⟨k, hk, hkey⟩ := h
    intro hnil
    have hm : k ∈ command_category_of e :=
      (command_category_of_mem e k).mpr ⟨ns_pushCond k hk, hkey⟩
    rw [hnil] at hm
    exact absurd hm (List.not_mem_nil k)

theorem analyzeStep_sup (acc : AnalyzeResult) (entry : Json) :
    (analyzeStep acc entry).supported_commands =
      acc.supported_commands ++
        (if isCommand entry = true ∧ command_category_of entry = [] then [entry] else []) := by
  unfold analyzeStep
  by_cases h1 : isCommand entry = true
  · simp only [h1, if_true, traverse_cc, command_category_of_eq]
    split_ifs with h2 <;> simp_all [List.length_pos]
  · simp [h1]

theorem analyzeStep_nsc (acc : AnalyzeResult) (entry : Json) :
    (analyzeStep acc entry).not_supported_commands =
      acc.not_supported_commands ++
        (if isCommand entry = true ∧ command_category_of entry ≠ [] then
          [(entry, command_category_of entry)] else []) := by
  unfold analyzeStep
  by_cases h1 : isCommand entry = true
  · simp only [h1, if_true, traverse_cc, command_category_of_eq]
    split_ifs with h2 <;> simp_all [List.length_pos]
  · simp [h1]

theorem analyze_foldl_sup (data : List Json) (acc : AnalyzeResult) :
    (data.foldl analyzeStep acc).supported_commands =
      acc.supported_commands ++
        data.filter (fun e => isCommand e && (command_category_of e).isEmpty) := by
  induction data generalizing acc with
  | nil => simp
  | cons e rest ih =>
    rw [List.foldl_cons, ih, analyzeStep_sup]
    by_cases h1 : isCommand e = true <;> by_cases h2 : command_category_of e = [] <;>
      simp [h1, h2, List.filter_cons]

theorem analyze_foldl_nsc (data : List Json) (acc : AnalyzeResult) :
    (data.foldl analyzeStep acc).not_supported_commands =
      acc.not_supported_commands ++
        (data.filter (fun e => isCommand e && !(command_category_of e).isEmpty)).map
          (fun e => (e, command_category_of e)) := by
  induction data generalizing acc with
  | nil => simp
  | cons e rest ih =>
    rw [List.foldl_cons, ih, analyzeStep_nsc]
    by_cases h1 : isCommand e = true <;> by_cases h2 : command_category_of e = [] <;>
      simp [h1, h2, List.filter_cons]

theorem analyze_keywords_sup (data : List Json) :
    (analyze_keywords data).supported_commands =
      data.filter (fun e => isCommand e && (command_category_of e).isEmpty) := by
  unfold analyze_keywords
  rw [analyze_foldl_sup]
  rfl

theorem analyze_keywords_nsc (data : List Json) :
    (analyze_keywords data).not_supported_commands =
      (data.filter (fun e => isCommand e && !(command_category_of e).isEmpty)).map
        (fun e => (e, command_category_of e)) := by
  unfold analyze_keywords
  rw [analyze_foldl_nsc]
  rfl

/-- Claim C1: an entry whose op field is not the string command is placed in
neither output sequence of analyze_keywords; an entry whose op field equals
command is placed in exactly one of the two sequences, in
not_supported_commands precisely when at least one not-supported keyword
occurs as an object key anywhere in its nested structure, and in
supported_commands otherwise (in particular when it holds no reserved-prefix
key at all). -/
theorem analyze_keywords_classification (data : List Json) (entry : Json)
    (hmem : entry ∈ data) :
    (isCommand entry = false →
      entry ∉ (analyze_keywords data).supported_commands ∧
      (∀ cc, (entry, cc) ∉ (analyze_keywords data).not_supported_commands)) ∧
    (isCommand entry = true →
      (containsNotSupportedKey entry = true →
        (∃ cc, (entry, cc) ∈ (analyze_keywords data).not_supported_commands) ∧
        entry ∉ (analyze_keywords data).supported_commands) ∧
      (containsNotSupportedKey entry = false →
        entry ∈ (analyze_keywords data).supported_commands ∧
        (∀ cc, (entry, cc) ∉ (analyze_keywords data).not_supported_commands))) := by
  rw [analyze_keywords_sup, analyze_keywords_nsc]
  refine ⟨fun hF => ⟨?_, ?_⟩, fun hT => ⟨fun hNS => ⟨?_, ?_⟩, fun hOK => ⟨?_, ?_⟩⟩⟩
  · intro hin
    have h2 := (List.mem_filter.mp hin).2
    simp [hF] at h2
  · intro cc hin
    rw [List.mem_map] at hin
    obtain ⟨e, he, heq⟩ := hin
    rw [Prod.mk.injEq] at heq
    obtain ⟨rfl, -⟩ := heq
    have h2 := (List.mem_filter.mp he).2
    simp [hF] at h2
  · have hne : command_category_of entry ≠ [] :=
      (command_category_nonempty_iff entry).mpr hNS
    refine ⟨command_category_of entry, ?_⟩
    rw [List.mem_map]
    refine ⟨entry, List.mem_filter.mpr ⟨hmem, ?_⟩, rfl⟩
    simp [hT, List.isEmpty_iff, hne]
  · intro hin
    have h2 := (List.mem_filter.mp hin).2
    have hne : command_category_of entry ≠ [] :=
      (command_category_nonempty_iff entry).mpr hNS
    simp [hT, List.isEmpty_iff, hne] at h2
  · have hnil : command_category_of entry = [] := by
      by_contra hne
      have hcon := (command_category_nonempty_iff entry).mp hne
      rw [hOK] at hcon
      exact Bool.false_ne_true hcon
    exact List.mem_filter.mpr ⟨hmem, by simp [hT, hnil]⟩
  · intro cc hin
    rw [List.mem_map] at hin
    obtain ⟨e, he, heq⟩ := hin
    rw [Prod.mk.injEq] at heq
    obtain ⟨heq1, -⟩ := heq
    subst heq1
    have h2 := (List.mem_filter.mp he).2
    have hnil : command_category_of e = [] := by
      by_contra hne
      have hcon := (command_category_nonempty_iff e).mp hne
      rw [hOK] at hcon
      exact Bool.false_ne_true hcon
    simp [hT, hnil] at h2

set_option maxRecDepth 40000 in
/-- Witness for C1 at concrete inputs: the skipped entry lands nowhere, the
bad entry lands in not_supported_commands only. -/
theorem analyze_keywords_classification_witness :
    (∃ cc, (sampleBadEntry, cc) ∈ (analyze_keywords sampleData).not_supported_commands) ∧
    sampleBadEntry ∉ (analyze_keywords sampleData).supported_commands ∧
    sampleSkipEntry ∉ (analyze_keywords sampleData).supported_commands ∧
    sampleGoodEntry ∈ (analyze_keywords sampleData).supported_commands := by
  have hb := analyze_keywords_classification sampleData sampleBadEntry
    (List.mem_cons_of_mem _ (List.mem_cons_of_mem _ (List.mem_cons_self _ _)))
  have hs := analyze_keywords_classification sampleData sampleSkipEntry
    (List.mem_cons_self _ _)
  have hg := analyze_keywords_classification sampleData sampleGoodEntry
    (List.mem_cons_of_mem _ (List.mem_cons_self _ _))
  exact ⟨((hb.2 rfl).1 rfl).1, ((hb.2 rfl).1 rfl).2, (hs.1 rfl).1, ((hg.2 rfl).2 rfl).1⟩

/-- Claim C3: every not-supported keyword occurring anywhere inside a
classified command entry sends the entry to not_supported_commands and is
listed exactly once in its command_category trigger list, no matter how many
occurrences it has inside the entry. -/
theorem not_supported_trigger_once (data : List Json) (entry : Json) (k : String)
    (hmem : entry ∈ data) (hcmd : isCommand entry = true)
    (hk : k ∈ not_supported_keywords) (hkey : hasKey k entry = true) :
    ∃ cc, (entry, cc) ∈ (analyze_keywords data).not_supported_commands ∧
      cc.count k = 1 := by
  refine ⟨command_category_of entry, ?_, ?_⟩
  · rw [analyze_keywords_nsc, List.mem_map]
    refine ⟨entry, List.mem_filter.mpr ⟨hmem, ?_⟩, rfl⟩
    have hne : command_category_of entry ≠ [] := by
      rw [command_category_nonempty_iff]
      unfold containsNotSupportedKey
      rw [List.any_eq_true]
      exact ⟨k, hk, hkey⟩
    simp [hcmd, List.isEmpty_iff, hne]
  · have hmemcc : k ∈ command_category_of entry :=
      (command_category_of_mem entry k).mpr ⟨ns_pushCond k hk, hkey⟩
    exact List.count_eq_one_of_mem (command_category_of_nodup entry) hmemcc

set_option maxRecDepth 40000 in
/-- Witness for C3: dollar-lookup occurs twice inside the bad entry and is
listed exactly once among its triggers. -/
theorem not_supported_trigger_once_witness :
    ∃ cc, (sampleBadEntry, cc) ∈ (analyze_keywords sampleData).not_supported_commands ∧
      cc.count "$lookup" = 1 :=
  not_supported_trigger_once sampleData sampleBadEntry "$lookup"
    (List.mem_cons_of_mem _ (List.mem_cons_of_mem _ (List.mem_cons_self _ _)))
    rfl (by decide) rfl

/-- Counterexample to C2 as stated: when the opcounters carry a deprecated
subdocument, total operations is not the sum of the six standard fields
alone; the deprecated query counter is added as well. -/
theorem calculate_cpu_cores_six_field_counterexample :
    (calculate_cpu_cores ⟨100, 200, 50, 10, 5, 5, some ⟨10⟩⟩ 370 1500).total_operations ≠
      100 + 200 + 50 + 10 + 5 + 5 := by
  norm_num [calculate_cpu_cores]

/-- Claim C2 (amended): total operations is the sum of the six opcounters
fields plus the deprecated query counter when the optional deprecated
subdocument is present; operations per second divide total operations by the
uptime with a zero guard; required cores are the ceiling of operations per
second over 1500; and the concrete example of the spec holds as stated since
it carries no deprecated subdocument. -/
theorem calculate_cpu_cores_spec (oc : Opcounters) (u : ℚ) :
    (calculate_cpu_cores oc u 1500).total_operations =
      oc.insert + oc.query + oc.update + oc.delete + oc.getmore + oc.command +
        (match oc.deprecated with
         | some d => d.query
         | none => 0) ∧
    (calculate_cpu_cores oc u 1500).ops_per_sec =
      (if 0 < u then (calculate_cpu_cores oc u 1500).total_operations / u else 0) ∧
    (calculate_cpu_cores oc u 1500).cpu_cores =
      ⌈(calculate_cpu_cores oc u 1500).ops_per_sec / 1500⌉ ∧
    calculate_cpu_cores ⟨100, 200, 50, 10, 5, 5, none⟩ 370 1500 = ⟨370, 1, 1⟩ := by
  refine ⟨rfl, rfl, rfl, ?_⟩
  unfold calculate_cpu_cores
  norm_num
  rw [Int.ceil_eq_iff]
  norm_num

/-- Claim C4: the compatibility percentage equals one hundred times the
supported total over the grand total with a zero guard, and always lies
between zero and one hundred. -/
theorem summarize_keywords_percent_bounds (sd nsd : List (String × Nat)) :
    ((summarize_keywords sd nsd).supported_percent =
      (if (summarize_keywords sd nsd).total_supported +
            (summarize_keywords sd nsd).total_not_supported = 0 then (0 : ℚ)
       else 100 * ((summarize_keywords sd nsd).total_supported : ℚ) /
         (((summarize_keywords sd nsd).total_supported : ℚ) +
           ((summarize_keywords sd nsd).total_not_supported : ℚ)))) ∧
    0 ≤ (summarize_keywords sd nsd).supported_percent ∧
    (summarize_keywords sd nsd).supported_percent ≤ 100 := by
  unfold summarize_keywords
  set a := (sd.map (fun p => p.2)).sum with ha
  set b := (nsd.map (fun p => p.2)).sum with hb
  simp only []
  refine ⟨?_, ?_, ?_⟩
  · rcases Nat.eq_zero_or_pos (a + b) with h | h
    · simp [h]
    · have h2 : a + b ≠ 0 := Nat.pos_iff_ne_zero.mp h
      have h3 : ((a : ℚ) + (b : ℚ)) ≠ 0 := by
        have : ((a + b : ℕ) : ℚ) ≠ 0 := Nat.cast_ne_zero.mpr h2
        push_cast at this
        exact this
      rw [if_pos h, if_neg h2]
      push_cast
      field_simp
      ring
  · split_ifs with h
    · positivity
    · norm_num
  · split_ifs with h
    · have hle : (a : ℚ) / ((a + b : ℕ) : ℚ) ≤ 1 := by
        apply div_le_one_of_le₀
        · exact_mod_cast Nat.le_add_right a b
        · positivity
      calc (a : ℚ) / ((a + b : ℕ) : ℚ) * 100 ≤ 1 * 100 :=
            mul_le_mul_of_nonneg_right hle (by norm_num)
        _ = 100 := by norm_num
    · norm_num

/-- Claim C5: the sizing mode validates the six required fields before any
computation: the missing list holds exactly the required names absent from
the file; when it is non-empty the run is rejected with the message listing
them and no sizing result is produced; when it is empty sizing proceeds. -/
theorem mode7_field_validation (j : Json) :
    (∀ f, f ∈ missing_fields j ↔ f ∈ required_fields ∧ hasField j f = false) ∧
    (missing_fields j ≠ [] →
      mode7 j = Except.error
        ("Metrics JSON file is missing required fields: " ++
          String.intercalate ", " (missing_fields j))) ∧
    (missing_fields j = [] →
      mode7 j = Except.ok (perform_sizing (decodeMetrics j) (decodeMetrics j).dbStats)) := by
  refine ⟨?_, ?_, ?_⟩
  · intro f
    unfold missing_fields
    rw [List.mem_filter]
    simp
  · intro h
    unfold mode7
    rw [if_pos (List.length_pos.mpr h)]
  · intro h
    unfold mode7
    rw [if_neg (by rw [h]; simp)]

/-- Witness for C5: a file lacking mem and network is rejected with both
names in the message, a complete file yields a sizing result. -/
theorem mode7_field_validation_witness :
    mode7 sampleBadMetricsJson =
      Except.error "Metrics JSON file is missing required fields: mem, network" ∧
    (∃ r, mode7 sampleMetricsJson = Except.ok r) := by
  have h1 := (mode7_field_validation sampleBadMetricsJson).2.1 (by decide)
  have h2 := (mode7_field_validation sampleMetricsJson).2.2 (by decide)
  exact ⟨h1, ⟨_, h2⟩⟩

/-- Counterexample to C6 as stated: the purge of mongoAssess.js does not
recover the collection-does-not-exist failure; the drop error propagates. -/
theorem purge_assess_counterexample :
    purge_profiling_data_assess (Except.error ⟨"NamespaceNotFound"⟩) ≠ Except.ok () := by
  simp [purge_profiling_data_assess]

/-- Claim C6 (amended): the purge of the enhanced script turns a successful
drop into success, recovers the namespace-not-found drop error as a
successful no-op and propagates every other drop failure, while the purge of
mongoAssess.js passes every drop outcome through unchanged. -/
theorem purge_profiling_data_error_recovery (e : MongoError) (r : Except MongoError Unit) :
    purge_profiling_data (Except.ok ()) = Except.ok () ∧
    (e.codeName = "NamespaceNotFound" →
      purge_profiling_data (Except.error e) = Except.ok ()) ∧
    (e.codeName ≠ "NamespaceNotFound" →
      purge_profiling_data (Except.error e) = Except.error e) ∧
    purge_profiling_data_assess r = r := by
  refine ⟨rfl, ?_, ?_, rfl⟩
  · intro h
    simp [purge_profiling_data, h]
  · intro h
    simp [purge_profiling_data, h]

/-- Witness for C6 (amended) at concrete errors. -/
theorem purge_profiling_data_error_recovery_witness :
    purge_profiling_data (Except.error ⟨"NamespaceNotFound"⟩) = Except.ok () ∧
    purge_profiling_data (Except.error ⟨"HostUnreachable"⟩) =
      Except.error ⟨"HostUnreachable"⟩ :=
  ⟨(purge_profiling_data_error_recovery ⟨"NamespaceNotFound"⟩ (Except.ok ())).2.1 rfl,
   (purge_profiling_data_error_recovery ⟨"HostUnreachable"⟩ (Except.ok ())).2.2.1
     (by decide)⟩

/-- Claim C7: working set, memory and storage sizing formulas, instantiated
on the concrete single-database example of the spec. -/
theorem memory_storage_sizing_spec (ms : Option Json) (db_stats : List (String × DbStat)) :
    (calculate_memory_requirements ms db_stats).working_set_size_mb =
      ((db_stats.map (fun p => p.2.dataSize.getD 0)).sum +
        (db_stats.map (fun p => p.2.indexSize.getD 0)).sum) / (1024 * 1024) ∧
    (calculate_memory_requirements ms db_stats).memory_required_mb =
      ⌈((calculate_memory_requirements ms db_stats).working_set_size_mb * 1.5 : ℚ)⌉ ∧
    calculate_storage_requirements db_stats =
      ⌈(((db_stats.map (fun p => p.2.totalSize.getD 0)).sum * 1.2 : ℚ))⌉ ∧
    calculate_memory_requirements ms
        [("a", ⟨some (100 * 1024 * 1024), some (50 * 1024 * 1024),
          some (200 * 1024 * 1024)⟩)] = ⟨150, 225⟩ ∧
    calculate_storage_requirements
        [("a", ⟨some (100 * 1024 * 1024), some (50 * 1024 * 1024),
          some (200 * 1024 * 1024)⟩)] = ⌈((200 * 1024 * 1024 * 1.2 : ℚ))⌉ := by
  refine ⟨rfl, rfl, rfl, ?_, ?_⟩
  · unfold calculate_memory_requirements
    norm_num
  · unfold calculate_storage_requirements
    norm_num

/-- Counterexample to C8 as stated: with a non-null sizing argument and a
null metrics argument, the FAQ block is still emitted. -/
theorem faq_with_sizing_counterexample :
    ReportSection.faq ∈ generate_html_report_sections none (some sampleSizing) := by
  decide

/-- Claim C8 (amended): the renderer of the enhanced script appends the FAQ
block exactly when the metrics argument is null, regardless of the sizing
argument; in particular it is present when both are null and absent whenever
metrics is non-null. -/
theorem faq_iff_no_metrics (metrics : Option Json) (sizing : Option SizingResult) :
    ReportSection.faq ∈ generate_html_report_sections metrics sizing ↔ metrics = none := by
  cases metrics <;> cases sizing <;> simp [generate_html_report_sections]

/-- Claim C9: perform_sizing never reads the memory fields: two snapshots
agreeing on opcounters, uptime, connections, network and dbStats produce
identical sizing results however their mem and memory fields differ. -/
theorem perform_sizing_mem_independent (m1 m2 : Metrics)
    (h1 : m1.opcounters = m2.opcounters) (h2 : m1.uptimeSeconds = m2.uptimeSeconds)
    (h3 : m1.connections = m2.connections) (h4 : m1.network = m2.network)
    (h5 : m1.dbStats = m2.dbStats) :
    perform_sizing m1 m1.dbStats = perform_sizing m2 m2.dbStats := by
  unfold perform_sizing calculate_memory_requirements
  rw [h1, h2, h3, h4, h5]

/-- Witness for C9: two concrete snapshots differing only in mem and memory
yield the same sizing result. -/
theorem perform_sizing_mem_independent_witness :
    perform_sizing sampleMetricsA sampleMetricsA.dbStats =
      perform_sizing sampleMetricsB sampleMetricsB.dbStats :=
  perform_sizing_mem_independent sampleMetricsA sampleMetricsB rfl rfl rfl rfl rfl

/-- Claim C10: absent nested numeric fields act as zero: memory, storage and
network results are unchanged when absent sizes are replaced by explicit
zeros, and every file passing the six-field check yields a sizing result
rather than an error. -/
theorem sizing_missing_nested_defaults (ms : Option Json)
    (db_stats : List (String × DbStat)) (net : Network) (u : ℚ) (j : Json)
    (hj : missing_fields j = []) :
    calculate_memory_requirements ms db_stats =
      calculate_memory_requirements ms (db_stats.map (fun p => (p.1, zeroFillStat p.2))) ∧
    calculate_storage_requirements db_stats =
      calculate_storage_requirements (db_stats.map (fun p => (p.1, zeroFillStat p.2))) ∧
    calculate_network_bandwidth net u =
      calculate_network_bandwidth ⟨some (net.bytesIn.getD 0), some (net.bytesOut.getD 0)⟩ u ∧
    (∃ r, mode7 j = Except.ok r) := by
  refine ⟨?_, ?_, rfl, ?_⟩
  · unfold calculate_memory_requirements
    simp [List.map_map, Function.comp_def, zeroFillStat]
  · unfold calculate_storage_requirements
    simp [List.map_map, Function.comp_def, zeroFillStat]
  · exact ⟨_, (mode7_field_validation j).2.2 hj⟩

/-- Witness for C10: a dbStats entry lacking sizes, a network lacking
bytesOut and the complete sample file all size without error. -/
theorem sizing_missing_nested_defaults_witness :
    calculate_memory_requirements none [("a", (⟨none, some 1, none⟩ : DbStat))] =
      calculate_memory_requirements none
        ([("a", (⟨none, some 1, none⟩ : DbStat))].map (fun p => (p.1, zeroFillStat p.2))) ∧
    calculate_storage_requirements [("a", (⟨none, some 1, none⟩ : DbStat))] =
      calculate_storage_requirements
        ([("a", (⟨none, some 1, none⟩ : DbStat))].map (fun p => (p.1, zeroFillStat p.2))) ∧
    calculate_network_bandwidth ⟨some 1024, none⟩ 10 =
      calculate_network_bandwidth ⟨some 1024, some 0⟩ 10 ∧
    (∃ r, mode7 sampleMetricsJson = Except.ok r) :=
  sizing_missing_nested_defaults none [("a", ⟨none, some 1, none⟩)] ⟨some 1024, none⟩ 10
    sampleMetricsJson (by decide)

end MongoAssess
